import Mathlib

/-!
Verification of the WF-ION-ED workflow service (src/main.py).

The development shallowly embeds the aggregation core:
* `get_dlr_data` (src/main.py:290-337): Upstream Client B adapter plus the
  Profile Normalizer loop (`dlrLoop`).
* `call_api` (src/main.py:66-131): the Profile Merger.

Modelling conventions:
* JSON objects become structures whose fields are `Option`-valued: `none`
  models an absent key.  A Python `KeyError k` caught by the `except` block at
  src/main.py:129-131 becomes an `Except.error` carrying `pyQuote k`, the
  result of Python's `str(KeyError(k))` (the key wrapped in single quotes).
* Numbers are `ℚ` (idealising Python floats); altitude arrays are `List Int`
  (the source's comment at src/main.py:86 declares `theight` integer valued).
* Python's `x ** 0.5` in the Normalizer is an opaque parameter
  `sqrtFn : ℚ → ℚ` threaded through: the claims about the Normalizer concern
  WHICH value the square root is applied to, not floating-point semantics.
* `products` / `measurements` are rebound by src/main.py:69-70 to
  ampersand-joined query strings; the subsequent tests
  `"TADM.ALG" in products` etc. are substring tests on those strings, which
  coincide with list membership because the enum-validated identifiers
  (src/main.py:21-28) are never substrings of one another.  The embedding
  uses list membership for the tests and keeps the joined strings
  (`productsQS`, `measurementsQS`) for the output echo fields.
* Network transport, `matplotlib` rendering and the FastAPI layer are outside
  the aggregation core and outside the claims; upstream responses are inputs.
-/

namespace WfIonEd

/-- The three model identifiers of the `PProducts` enum (src/main.py:21-24). -/
inductive Model where
  | NEQUICK
  | TADM
  | NEDM2020
deriving DecidableEq

/-- The two measurement kinds of the `Measurements` enum (src/main.py:26-28). -/
inductive Measurement where
  | frequency
  | edensity
deriving DecidableEq

/-- Identifier string of a model, as in the `PProducts` enum values. -/
def modelStr : Model → String
  | .NEQUICK => "NEQUICK.ALG"
  | .TADM => "TADM.ALG"
  | .NEDM2020 => "NEDM2020.ALG"

/-- Measurement-kind string, as in the `Measurements` enum values. -/
def measStr : Measurement → String
  | .frequency => "frequency"
  | .edensity => "edensity"

/-- src/main.py:69: `"&".join([f"products={product}" for product in products])`. -/
def productsQS (ps : List Model) : String :=
  String.intercalate "&" (ps.map (fun p => "products=" ++ modelStr p))

/-- src/main.py:70: the ampersand-joined measurement query fragments. -/
def measurementsQS (ms : List Measurement) : String :=
  String.intercalate "&" (ms.map (fun m => "measurements=" ++ measStr m))

/-- `str(KeyError(k))` in Python: the key name wrapped in single quotes. -/
def pyQuote (s : String) : String :=
  (Char.ofNat 39).toString ++ s ++ (Char.ofNat 39).toString

/-- One model's vertical-series JSON object: each key may be absent. -/
structure SeriesData where
  theight : Option (List Int)
  frequency : Option (List ℚ)
  edensity : Option (List ℚ)
deriving DecidableEq

/-- The `vprofile` JSON object, one optional entry per model identifier
(Python dict keyed by `"NEQUICK.ALG"`, `"TADM.ALG"`, `"NEDM2020.ALG"`). -/
structure VProfile where
  nequick : Option SeriesData
  tadm : Option SeriesData
  nedm : Option SeriesData
deriving DecidableEq

/-- `grid_params.SolCycle` (src/main.py:81-82). -/
structure SolCycleObj where
  ssn : Option ℚ
  f10_7 : Option ℚ
deriving DecidableEq

/-- `grid_params.Kp` (src/main.py:83). -/
structure KpObj where
  kp : Option ℚ
deriving DecidableEq

/-- `grid_params` object of Client A's response. -/
structure GridParams where
  SolCycle : Option SolCycleObj
  Kp : Option KpObj
deriving DecidableEq

/-- `model_data` object of Client A's response (src/main.py:84). -/
structure ModelData where
  vprofile : Option VProfile
deriving DecidableEq

/-- Client A's parsed JSON response: the two top-level keys checked at
src/main.py:79. -/
structure AResp where
  grid_params : Option GridParams
  model_data : Option ModelData
deriving DecidableEq

/-- One feature of Client B's feature collection: `geometry.coordinates[2]`
(altitude, km) and `properties.electron_density_10^12/m^3`
(src/main.py:327-328). -/
structure Feature where
  alt : ℚ
  density : ℚ
deriving DecidableEq

/-- Client B's parsed JSON response: the optional `features` array
(src/main.py:313). -/
structure BResp where
  features : Option (List Feature)
deriving DecidableEq

/-- Result of `get_dlr_data`: either the `{"NEDM2020.ALG": {...}}` dict
(carrying the one series) or the `{"error": ...}` dict. -/
inductive DlrResult where
  | ok (series : SeriesData)
  | err (msg : String)
deriving DecidableEq

/-- The value under the `"error"` key of `call_api`'s failure dict:
either the raw Client A payload (src/main.py:80) or an exception's message
string (src/main.py:131). -/
inductive ErrVal where
  | payload (data : AResp)
  | msg (s : String)
deriving DecidableEq

/-- The success dict assembled at src/main.py:118-127.  `products` and
`measurements` hold the query strings rebound at src/main.py:69-70. -/
structure OutputData where
  timestamp : String
  location : ℚ × ℚ
  ssn : ℚ
  f10_7 : ℚ
  kp : ℚ
  products : String
  measurements : String
  plot_data : VProfile
deriving DecidableEq

/-- `call_api`'s result: the success dict or the `{"error": ...}` dict. -/
inductive CallResult where
  | ok (out : OutputData)
  | err (e : ErrVal)
deriving DecidableEq

/-- Python's `round` on the altitude (src/main.py:330): round half to even. -/
def pyRound (q : ℚ) : Int :=
  let f := ⌊q⌋
  let r := q - f
  if r < 1/2 then f
  else if r > 1/2 then f + 1
  else if f % 2 = 0 then f else f + 1

/-- The plasma-frequency constant `8.9803` of src/main.py:336. -/
def plasmaConst : ℚ := 89803 / 10000

/-- The `1e6` density rescale factor of src/main.py:334. -/
def megaScale : ℚ := 1000000

/-- The Normalizer loop (src/main.py:326-336): for each feature in order,
round the altitude; when `height <= 1000 and height >= 100`, append the
height, the frequency `8.9803 * density ** 0.5` (from the raw density) and
the rescaled density `density * 1e6` to the three parallel lists. -/
def dlrLoop (sqrtFn : ℚ → ℚ) : List Feature → List Int × List ℚ × List ℚ
  | [] => ([], [], [])
  | f :: rest =>
    let prev := dlrLoop sqrtFn rest
    let height := pyRound f.alt
    if height ≤ 1000 ∧ height ≥ 100 then
      (height :: prev.1,
       (plasmaConst * sqrtFn f.density) :: prev.2.1,
       (f.density * megaScale) :: prev.2.2)
    else prev

/-- `get_dlr_data` (src/main.py:290-337) after the HTTP exchange: reject a
missing or empty `features` array with the error dict, otherwise run the
Normalizer loop and return the `NEDM2020.ALG` series dict. -/
def get_dlr_data (sqrtFn : ℚ → ℚ) (resp : BResp) : DlrResult :=
  match resp.features with
  | none => .err "No features found in the response"
  | some feats =>
    if feats.length = 0 then .err "No features found in the response"
    else
      let r := dlrLoop sqrtFn feats
      .ok { theight := some r.1, frequency := some r.2.1, edensity := some r.2.2 }

/-- The solar context extracted at src/main.py:81-84, plus the `vprofile`
dict that seeds `plot_data`. -/
structure Ctx where
  ssn : ℚ
  f10_7 : ℚ
  kp : ℚ
  vp : VProfile
deriving DecidableEq

/-- The nested lookups of src/main.py:81-84, in source evaluation order;
a missing key raises `KeyError` with that key's name. -/
def extractCtx (gp : GridParams) (md : ModelData) : Except String Ctx :=
  match gp.SolCycle with
  | none => .error (pyQuote "SolCycle")
  | some sc =>
    match sc.ssn with
    | none => .error (pyQuote "ssn")
    | some ssn =>
      match sc.f10_7 with
      | none => .error (pyQuote "f10_7")
      | some f10_7 =>
        match gp.Kp with
        | none => .error (pyQuote "Kp")
        | some kpo =>
          match kpo.kp with
          | none => .error (pyQuote "kp")
          | some kp =>
            match md.vprofile with
            | none => .error (pyQuote "vprofile")
            | some vp => .ok { ssn := ssn, f10_7 := f10_7, kp := kp, vp := vp }

/-- The conditional truncations of src/main.py:90-93: when the measurement
was requested, look the array up (KeyError when absent) and keep its first
`n` elements; otherwise leave the entry untouched. -/
def truncMeas (req : Bool) (arr : Option (List ℚ)) (n : Nat) (key : String) :
    Except String (Option (List ℚ)) :=
  if req then
    match arr with
    | none => .error (pyQuote key)
    | some l => .ok (some (l.take n))
  else .ok arr

/-- src/main.py:85-97: when `TADM.ALG` is requested, filter its `theight`
to altitudes `<= 1000`, then truncate `frequency` / `edensity` to the
filtered length when those measurements were requested; when `TADM.ALG` is
not requested, delete it from `plot_data`. -/
def tadmStep (ps : List Model) (ms : List Measurement) (vp : VProfile) :
    Except String VProfile :=
  if Model.TADM ∈ ps then
    match vp.tadm with
    | none => .error (pyQuote "TADM.ALG")
    | some t =>
      match t.theight with
      | none => .error (pyQuote "theight")
      | some th =>
        let th' := th.filter (fun height => decide (height ≤ 1000))
        let adjust_data_size := th'.length
        match truncMeas (decide (Measurement.frequency ∈ ms)) t.frequency
            adjust_data_size "frequency" with
        | .error e => .error e
        | .ok fr =>
          match truncMeas (decide (Measurement.edensity ∈ ms)) t.edensity
              adjust_data_size "edensity" with
          | .error e => .error e
          | .ok ed =>
            .ok { vp with tadm := some { theight := some th', frequency := fr, edensity := ed } }
  else
    .ok { vp with tadm := none }

/-- src/main.py:98-101: delete `NEQUICK.ALG` from `plot_data` when it was
not requested. -/
def nequickStep (ps : List Model) (vp : VProfile) : VProfile :=
  if Model.NEQUICK ∈ ps then vp else { vp with nequick := none }

/-- src/main.py:102-115: when `NEDM2020.ALG` is requested, look up
`dlr_data["NEDM2020.ALG"]` (a KeyError when `get_dlr_data` returned its
error dict, which has only an `"error"` key), insert the series, then delete
the measurement arrays that were not requested (the series built by
`get_dlr_data` always carries both, so the `del` cannot itself fail). -/
def nedmStep (ps : List Model) (ms : List Measurement) (dlr : DlrResult)
    (vp : VProfile) : Except String VProfile :=
  if Model.NEDM2020 ∈ ps then
    match dlr with
    | .err _ => .error (pyQuote "NEDM2020.ALG")
    | .ok s =>
      let s1 := if Measurement.frequency ∈ ms then s else { s with frequency := none }
      let s2 := if Measurement.edensity ∈ ms then s1 else { s1 with edensity := none }
      .ok { vp with nedm := some s2 }
  else .ok vp

/-- The Profile Merger `call_api` (src/main.py:66-131) after Client A's JSON
has been parsed.  `b` is Client B's parsed response, consumed only inside
`nedmStep`'s requested branch, mirroring the `await get_dlr_data(...)` call
at src/main.py:106.  The top-level key check (src/main.py:79-80) wraps the
raw payload; every later missing key surfaces as the caught exception's
message (src/main.py:129-131). -/
def call_api (ts : String) (lat lon : ℚ) (ps : List Model)
    (ms : List Measurement) (data : AResp) (b : BResp) (sqrtFn : ℚ → ℚ) :
    CallResult :=
  match data.grid_params, data.model_data with
  | some gp, some md =>
    (match extractCtx gp md with
     | .error e => .err (.msg e)
     | .ok c =>
       match tadmStep ps ms c.vp with
       | .error e => .err (.msg e)
       | .ok vp1 =>
         match nedmStep ps ms (get_dlr_data sqrtFn b) (nequickStep ps vp1) with
         | .error e => .err (.msg e)
         | .ok vp3 =>
           .ok { timestamp := ts, location := (lat, lon), ssn := c.ssn,
                 f10_7 := c.f10_7, kp := c.kp, products := productsQS ps,
                 measurements := measurementsQS ms, plot_data := vp3 })
  | _, _ => .err (.payload data)

/-- Client A's `TADM.ALG` series, read off the raw response. -/
def aTadm (data : AResp) : Option SeriesData :=
  (data.model_data.bind ModelData.vprofile).bind VProfile.tadm

/-- Client A's `NEDM2020.ALG` entry, read off the raw response.  Per the
Client A contract (spec section 4.1) only the baseline pair is returned, so
a conforming response has `aNedm data = none`. -/
def aNedm (data : AResp) : Option SeriesData :=
  (data.model_data.bind ModelData.vprofile).bind VProfile.nedm

/-- The Normalizer's keep condition (src/main.py:332) on a feature. -/
def keepF (f : Feature) : Bool :=
  decide (pyRound f.alt ≤ 1000 ∧ pyRound f.alt ≥ 100)

/-! ### Concrete fixtures used by the per-claim theorems -/

/-- A well-formed `grid_params` object with `ssn = 1`, `f10_7 = 2`, `kp = 3`. -/
def gpFix : GridParams :=
  { SolCycle := some { ssn := some 1, f10_7 := some 2 }
    Kp := some { kp := some 3 } }

/-- An empty `vprofile` dict. -/
def vpEmpty : VProfile :=
  { nequick := none
    tadm := none
    nedm := none }

/-- `vprofile` whose `TADM.ALG` series has a `frequency` array that was
returned upstream (length 3) alongside `theight = [100, 500, 1200]`. -/
def vpC1 : VProfile :=
  { nequick := none
    tadm := some ⟨some [100, 500, 1200], some [1, 2, 3], some [10, 20, 30]⟩
    nedm := none }

/-- Client A response carrying `vpC1`. -/
def dataC1 : AResp :=
  { grid_params := some gpFix
    model_data := some { vprofile := some vpC1 } }

/-- Expected merger output for `dataC1` with `products = [TADM]`,
`measurements = [edensity]`. -/
def outC1 : OutputData :=
  { timestamp := "t"
    location := (0, 0)
    ssn := 1
    f10_7 := 2
    kp := 3
    products := "products=TADM.ALG"
    measurements := "measurements=edensity"
    plot_data :=
      { nequick := none
        tadm := some ⟨some [100, 500], some [1, 2, 3], some [10, 20]⟩
        nedm := none } }

/-- Client B response with a single in-range feature (altitude 300,
density 4), used in the C1 witness run. -/
def bC1w : BResp := ⟨some [⟨300, 4⟩]⟩

/-- Expected merger output for `dataC1` with `products = [TADM, NEDM2020]`,
`measurements = [frequency, edensity]`, Client B response `bC1w` and the
identity as `sqrtFn`. -/
def outC1w : OutputData :=
  { timestamp := "t"
    location := (0, 0)
    ssn := 1
    f10_7 := 2
    kp := 3
    products := "products=TADM.ALG&products=NEDM2020.ALG"
    measurements := "measurements=frequency&measurements=edensity"
    plot_data :=
      { nequick := none
        tadm := some ⟨some [100, 500], some [1, 2], some [10, 20]⟩
        nedm := some ⟨some [300], some [89803 / 2500], some [4000000]⟩ } }

/-- `vprofile` whose `TADM.ALG` `edensity` array (length 1) is shorter than
the filtered `theight` (length 2). -/
def vpC2 : VProfile :=
  { nequick := none
    tadm := some ⟨some [100, 500], none, some [7]⟩
    nedm := none }

/-- Client A response carrying `vpC2`. -/
def dataC2 : AResp :=
  { grid_params := some gpFix
    model_data := some { vprofile := some vpC2 } }

/-- Expected merger output for `dataC2` with `products = [TADM]`,
`measurements = [edensity]`. -/
def outC2 : OutputData :=
  { timestamp := "t"
    location := (0, 0)
    ssn := 1
    f10_7 := 2
    kp := 3
    products := "products=TADM.ALG"
    measurements := "measurements=edensity"
    plot_data :=
      { nequick := none
        tadm := some ⟨some [100, 500], none, some [7]⟩
        nedm := none } }

/-- `vprofile` of the spec scenario `theight = [100, 500, 1200]`,
`edensity = [1, 2, 3]`, no upstream `frequency` key. -/
def vpC2w : VProfile :=
  { nequick := none
    tadm := some ⟨some [100, 500, 1200], none, some [1, 2, 3]⟩
    nedm := none }

/-- Client A response of the spec's TADM truncation scenario. -/
def dataC2w : AResp :=
  { grid_params := some gpFix
    model_data := some { vprofile := some vpC2w } }

/-- Expected merger output of the spec's TADM truncation scenario. -/
def outC2w : OutputData :=
  { timestamp := "t"
    location := (0, 0)
    ssn := 1
    f10_7 := 2
    kp := 3
    products := "products=TADM.ALG"
    measurements := "measurements=edensity"
    plot_data :=
      { nequick := none
        tadm := some ⟨some [100, 500], none, some [1, 2]⟩
        nedm := none } }

/-- Client A response missing the `model_data` top-level key. -/
def dataC3 : AResp :=
  { grid_params := some gpFix
    model_data := none }

/-- The three features of the spec's Normalizer scenario: altitudes
50, 300, 1500 (densities 2, 4, 9). -/
def fsC4 : List Feature := [⟨50, 2⟩, ⟨300, 4⟩, ⟨1500, 9⟩]

/-- A well-formed Client A response with an empty `vprofile` dict. -/
def dataC6 : AResp :=
  { grid_params := some gpFix
    model_data := some { vprofile := some vpEmpty } }

/-- `vprofile` whose `TADM.ALG` series carries a `frequency` array even
though the C7 run requests only `edensity`. -/
def vpC7 : VProfile :=
  { nequick := none
    tadm := some ⟨some [100, 500], some [1, 2], some [10, 20]⟩
    nedm := none }

/-- Client A response carrying `vpC7`. -/
def dataC7 : AResp :=
  { grid_params := some gpFix
    model_data := some { vprofile := some vpC7 } }

/-- Expected merger output for `dataC7` with `products = [TADM]`,
`measurements = [edensity]`: the unrequested `frequency` array survives. -/
def outC7 : OutputData :=
  { timestamp := "t"
    location := (0, 0)
    ssn := 1
    f10_7 := 2
    kp := 3
    products := "products=TADM.ALG"
    measurements := "measurements=edensity"
    plot_data :=
      { nequick := none
        tadm := some ⟨some [100, 500], some [1, 2], some [10, 20]⟩
        nedm := none } }

/-- Client A response for the C7 witness run (empty `vprofile`). -/
def dataC7b : AResp :=
  { grid_params := some gpFix
    model_data := some { vprofile := some vpEmpty } }

/-- Client B response for the C7 witness run. -/
def bC7b : BResp := ⟨some [⟨300, 4⟩]⟩

/-- Expected merger output for `dataC7b` with `products = [NEDM2020]`,
`measurements = [edensity]`: `frequency` is deleted from the NEDM2020
series. -/
def outC7b : OutputData :=
  { timestamp := "t"
    location := (0, 0)
    ssn := 1
    f10_7 := 2
    kp := 3
    products := "products=NEDM2020.ALG"
    measurements := "measurements=edensity"
    plot_data :=
      { nequick := none
        tadm := none
        nedm := some ⟨some [300], none, some [4000000]⟩ } }

/-- `vprofile` returning both baseline models. -/
def vpC8 : VProfile :=
  { nequick := some ⟨some [200], some [5], some [6]⟩
    tadm := some ⟨some [300], some [7], some [8]⟩
    nedm := none }

/-- Client A response carrying `vpC8`. -/
def dataC8 : AResp :=
  { grid_params := some gpFix
    model_data := some { vprofile := some vpC8 } }

/-- Expected merger output for `dataC8` with `products = [NEQUICK]`,
`measurements = [frequency]`: the unrequested baseline `TADM.ALG` is
removed. -/
def outC8 : OutputData :=
  { timestamp := "t"
    location := (0, 0)
    ssn := 1
    f10_7 := 2
    kp := 3
    products := "products=NEQUICK.ALG"
    measurements := "measurements=frequency"
    plot_data :=
      { nequick := some ⟨some [200], some [5], some [6]⟩
        tadm := none
        nedm := none } }

/-- `vprofile` for the C9 run. -/
def vpC9 : VProfile :=
  { nequick := some ⟨some [200], some [5], none⟩
    tadm := none
    nedm := none }

/-- Client A response carrying `vpC9`. -/
def dataC9 : AResp :=
  { grid_params := some gpFix
    model_data := some { vprofile := some vpC9 } }

/-- Expected merger output for `dataC9` with `products = [NEQUICK]`,
`measurements = [frequency]`. -/
def outC9 : OutputData :=
  { timestamp := "t"
    location := (0, 0)
    ssn := 1
    f10_7 := 2
    kp := 3
    products := "products=NEQUICK.ALG"
    measurements := "measurements=frequency"
    plot_data :=
      { nequick := some ⟨some [200], some [5], none⟩
        tadm := none
        nedm := none } }

/-- Client A response with both top-level keys present but `SolCycle`
missing inside `grid_params`. -/
def dataC10 : AResp :=
  { grid_params := some { SolCycle := none, Kp := some { kp := some 3 } }
    model_data := some { vprofile := some vpEmpty } }

/-! ### Structural lemmas about the embedded pipeline -/


lemma dlrLoop_theight (sqrtFn : ℚ → ℚ) (fs : List Feature) :
    (dlrLoop sqrtFn fs).1 = (fs.filter keepF).map (fun f => pyRound f.alt) := by
  induction fs with
  | nil => rfl
  | cons f rest ih =>
    by_cases hk : pyRound f.alt ≤ 1000 ∧ pyRound f.alt ≥ 100 <;>
      simp [dlrLoop, keepF, List.filter_cons, hk, ih]

lemma dlrLoop_frequency (sqrtFn : ℚ → ℚ) (fs : List Feature) :
    (dlrLoop sqrtFn fs).2.1 =
      (fs.filter keepF).map (fun f => plasmaConst * sqrtFn f.density) := by
  induction fs with
  | nil => rfl
  | cons f rest ih =>
    by_cases hk : pyRound f.alt ≤ 1000 ∧ pyRound f.alt ≥ 100 <;>
      simp [dlrLoop, keepF, List.filter_cons, hk, ih]

lemma dlrLoop_edensity (sqrtFn : ℚ → ℚ) (fs : List Feature) :
    (dlrLoop sqrtFn fs).2.2 =
      (fs.filter keepF).map (fun f => f.density * megaScale) := by
  induction fs with
  | nil => rfl
  | cons f rest ih =>
    by_cases hk : pyRound f.alt ≤ 1000 ∧ pyRound f.alt ≥ 100 <;>
      simp [dlrLoop, keepF, List.filter_cons, hk, ih]

/-- A successful `get_dlr_data` run is the Normalizer applied to a nonempty
feature list. -/
lemma get_dlr_data_ok {sqrtFn : ℚ → ℚ} {b : BResp} {s : SeriesData}
    (h : get_dlr_data sqrtFn b = .ok s) :
    ∃ fs, b.features = some fs ∧ fs ≠ [] ∧
      s = ⟨some ((fs.filter keepF).map fun f => pyRound f.alt),
           some ((fs.filter keepF).map fun f => plasmaConst * sqrtFn f.density),
           some ((fs.filter keepF).map fun f => f.density * megaScale)⟩ := by
  unfold get_dlr_data at h
  cases hf : b.features with
  | none => simp [hf] at h
  | some fs =>
    simp only [hf] at h
    by_cases hz : fs.length = 0
    · rw [if_pos hz] at h; exact absurd h (by simp)
    · rw [if_neg hz] at h
      injection h with h
      refine ⟨fs, rfl, by simpa using hz, ?_⟩
      rw [← h]
      simp [dlrLoop_theight, dlrLoop_frequency, dlrLoop_edensity]

lemma extractCtx_ok {gp : GridParams} {md : ModelData} {c : Ctx}
    (h : extractCtx gp md = .ok c) :
    ∃ sc kpo, gp.SolCycle = some sc ∧ sc.ssn = some c.ssn ∧
      sc.f10_7 = some c.f10_7 ∧ gp.Kp = some kpo ∧ kpo.kp = some c.kp ∧
      md.vprofile = some c.vp := by
  unfold extractCtx at h
  cases hsc : gp.SolCycle with
  | none => simp [hsc] at h
  | some sc =>
    simp only [hsc] at h
    cases hssn : sc.ssn with
    | none => simp [hssn] at h
    | some ssn =>
      simp only [hssn] at h
      cases hf : sc.f10_7 with
      | none => simp [hf] at h
      | some f107 =>
        simp only [hf] at h
        cases hkp : gp.Kp with
        | none => simp [hkp] at h
        | some kpo =>
          simp only [hkp] at h
          cases hk : kpo.kp with
          | none => simp [hk] at h
          | some kp =>
            simp only [hk] at h
            cases hvp : md.vprofile with
            | none => simp [hvp] at h
            | some vp =>
              simp only [hvp] at h
              injection h with h
              subst h
              exact ⟨sc, kpo, rfl, hssn, hf, rfl, hk, rfl⟩

lemma truncMeas_false {arr : Option (List ℚ)} {n : Nat} {key : String} :
    truncMeas false arr n key = .ok arr := rfl

lemma truncMeas_true_ok {arr res : Option (List ℚ)} {n : Nat} {key : String}
    (h : truncMeas true arr n key = .ok res) :
    ∃ l, arr = some l ∧ res = some (l.take n) := by
  unfold truncMeas at h
  cases harr : arr with
  | none => simp [harr] at h
  | some l =>
    simp only [harr, if_true] at h
    injection h with h
    exact ⟨l, rfl, h.symm⟩

lemma tadmStep_not_req {ps : List Model} {ms : List Measurement}
    {vp : VProfile} (hn : Model.TADM ∉ ps) :
    tadmStep ps ms vp = .ok { vp with tadm := none } := by
  unfold tadmStep
  simp [hn]

lemma tadmStep_req_ok {ps : List Model} {ms : List Measurement}
    {vp vp1 : VProfile} (hm : Model.TADM ∈ ps)
    (h : tadmStep ps ms vp = .ok vp1) :
    ∃ t th fr ed, vp.tadm = some t ∧ t.theight = some th ∧
      truncMeas (decide (Measurement.frequency ∈ ms)) t.frequency
        (th.filter (fun height => decide (height ≤ 1000))).length "frequency" = .ok fr ∧
      truncMeas (decide (Measurement.edensity ∈ ms)) t.edensity
        (th.filter (fun height => decide (height ≤ 1000))).length "edensity" = .ok ed ∧
      vp1 = { vp with
        tadm := some ⟨some (th.filter (fun height => decide (height ≤ 1000))), fr, ed⟩ } := by
  unfold tadmStep at h
  rw [if_pos hm] at h
  cases ht : vp.tadm with
  | none => simp [ht] at h
  | some t =>
    simp only [ht] at h
    cases hth : t.theight with
    | none => simp [hth] at h
    | some th =>
      simp only [hth] at h
      cases hfr : truncMeas (decide (Measurement.frequency ∈ ms)) t.frequency
          (th.filter (fun height => decide (height ≤ 1000))).length "frequency" with
      | error e => simp [hfr] at h
      | ok fr =>
        simp only [hfr] at h
        cases hed : truncMeas (decide (Measurement.edensity ∈ ms)) t.edensity
            (th.filter (fun height => decide (height ≤ 1000))).length "edensity" with
        | error e => simp [hed] at h
        | ok ed =>
          simp only [hed] at h
          injection h with h
          subst h
          exact ⟨t, th, fr, ed, rfl, hth, hfr, hed, rfl⟩

lemma tadmStep_nequick {ps : List Model} {ms : List Measurement}
    {vp vp1 : VProfile} (h : tadmStep ps ms vp = .ok vp1) :
    vp1.nequick = vp.nequick := by
  by_cases hm : Model.TADM ∈ ps
  · obtain ⟨t, th, fr, ed, _, _, _, _, rfl⟩ := tadmStep_req_ok hm h
    rfl
  · rw [tadmStep_not_req hm] at h; cases h; rfl

lemma tadmStep_nedm {ps : List Model} {ms : List Measurement}
    {vp vp1 : VProfile} (h : tadmStep ps ms vp = .ok vp1) :
    vp1.nedm = vp.nedm := by
  by_cases hm : Model.TADM ∈ ps
  · obtain ⟨t, th, fr, ed, _, _, _, _, rfl⟩ := tadmStep_req_ok hm h
    rfl
  · rw [tadmStep_not_req hm] at h; cases h; rfl

lemma nequickStep_tadm {ps : List Model} {vp : VProfile} :
    (nequickStep ps vp).tadm = vp.tadm := by
  unfold nequickStep; split <;> rfl

lemma nequickStep_nedm {ps : List Model} {vp : VProfile} :
    (nequickStep ps vp).nedm = vp.nedm := by
  unfold nequickStep; split <;> rfl

lemma nequickStep_not_req {ps : List Model} {vp : VProfile}
    (hn : Model.NEQUICK ∉ ps) : (nequickStep ps vp).nequick = none := by
  unfold nequickStep
  simp [hn]

lemma nedmStep_not_req {ps : List Model} {ms : List Measurement}
    {dlr : DlrResult} {vp : VProfile} (hn : Model.NEDM2020 ∉ ps) :
    nedmStep ps ms dlr vp = .ok vp := by
  unfold nedmStep
  simp [hn]

lemma nedmStep_req_err {ps : List Model} {ms : List Measurement}
    {m : String} {vp : VProfile} (hm : Model.NEDM2020 ∈ ps) :
    nedmStep ps ms (.err m) vp = .error (pyQuote "NEDM2020.ALG") := by
  unfold nedmStep
  simp [hm]

lemma nedmStep_req_ok {ps : List Model} {ms : List Measurement}
    {dlr : DlrResult} {vp vp3 : VProfile} (hm : Model.NEDM2020 ∈ ps)
    (h : nedmStep ps ms dlr vp = .ok vp3) :
    ∃ s, dlr = .ok s ∧ vp3 = { vp with
      nedm := some ⟨s.theight,
        if Measurement.frequency ∈ ms then s.frequency else none,
        if Measurement.edensity ∈ ms then s.edensity else none⟩ } := by
  unfold nedmStep at h
  rw [if_pos hm] at h
  cases dlr with
  | err m => exact absurd h (by simp)
  | ok s =>
    refine ⟨s, rfl, ?_⟩
    simp only [Except.ok.injEq] at h
    subst h
    by_cases hf : Measurement.frequency ∈ ms <;>
      by_cases he : Measurement.edensity ∈ ms <;>
        simp [hf, he]

lemma nedmStep_tadm {ps : List Model} {ms : List Measurement}
    {dlr : DlrResult} {vp vp3 : VProfile}
    (h : nedmStep ps ms dlr vp = .ok vp3) : vp3.tadm = vp.tadm := by
  by_cases hm : Model.NEDM2020 ∈ ps
  · obtain ⟨s, _, rfl⟩ := nedmStep_req_ok hm h
    rfl
  · rw [nedmStep_not_req hm] at h; cases h; rfl

lemma nedmStep_nequick {ps : List Model} {ms : List Measurement}
    {dlr : DlrResult} {vp vp3 : VProfile}
    (h : nedmStep ps ms dlr vp = .ok vp3) : vp3.nequick = vp.nequick := by
  by_cases hm : Model.NEDM2020 ∈ ps
  · obtain ⟨s, _, rfl⟩ := nedmStep_req_ok hm h
    rfl
  · rw [nedmStep_not_req hm] at h; cases h; rfl

lemma aTadm_ctx {data : AResp} {md : ModelData} {c : Ctx}
    (hmd : data.model_data = some md) (hvp : md.vprofile = some c.vp) :
    aTadm data = c.vp.tadm := by
  unfold aTadm
  rw [hmd]
  simp [hvp]

lemma aNedm_ctx {data : AResp} {md : ModelData} {c : Ctx}
    (hmd : data.model_data = some md) (hvp : md.vprofile = some c.vp) :
    aNedm data = c.vp.nedm := by
  unfold aNedm
  rw [hmd]
  simp [hvp]

/-- Successful runs of `call_api` decompose into the pipeline stages. -/
lemma call_api_ok_elim {ts : String} {lat lon : ℚ} {ps : List Model}
    {ms : List Measurement} {data : AResp} {b : BResp} {sqrtFn : ℚ → ℚ}
    {out : OutputData}
    (h : call_api ts lat lon ps ms data b sqrtFn = .ok out) :
    ∃ gp md c vp1 vp3,
      data.grid_params = some gp ∧ data.model_data = some md ∧
      extractCtx gp md = .ok c ∧
      tadmStep ps ms c.vp = .ok vp1 ∧
      nedmStep ps ms (get_dlr_data sqrtFn b) (nequickStep ps vp1) = .ok vp3 ∧
      out = { timestamp := ts, location := (lat, lon), ssn := c.ssn,
              f10_7 := c.f10_7, kp := c.kp, products := productsQS ps,
              measurements := measurementsQS ms, plot_data := vp3 } := by
  unfold call_api at h
  cases hgp : data.grid_params with
  | none => cases hmd : data.model_data <;> simp [hgp, hmd] at h
  | some gp =>
    cases hmd : data.model_data with
    | none => simp [hgp, hmd] at h
    | some md =>
      simp only [hgp, hmd] at h
      cases hc : extractCtx gp md with
      | error e => simp [hc] at h
      | ok c =>
        simp only [hc] at h
        cases h1 : tadmStep ps ms c.vp with
        | error e => simp [h1] at h
        | ok vp1 =>
          simp only [h1] at h
          cases h3 : nedmStep ps ms (get_dlr_data sqrtFn b) (nequickStep ps vp1) with
          | error e => simp [h3] at h
          | ok vp3 =>
            simp only [h3] at h
            injection h with h
            subst h
            exact ⟨gp, md, c, vp1, vp3, rfl, rfl, hc, h1, h3, rfl⟩

/-! ### Claim theorems -/

/-- C3 (confirmed): if Client A's JSON response lacks the `grid_params` key or
the `model_data` key, the Merger returns the ErrorPayload `{error: <the raw
payload>}` immediately, and the result does not depend on Client B's response
in any way (Client B is never invoked: its response `b` and the square-root
function are dead inputs on this path). -/
theorem C3_structural_failure_short_circuit (ts : String) (lat lon : ℚ)
    (ps : List Model) (ms : List Measurement) (data : AResp) (b : BResp)
    (sqrtFn : ℚ → ℚ) (h : data.grid_params = none ∨ data.model_data = none) :
    call_api ts lat lon ps ms data b sqrtFn = .err (.payload data) ∧
    ∀ b2 sqrtFn2, call_api ts lat lon ps ms data b2 sqrtFn2 =
      call_api ts lat lon ps ms data b sqrtFn := by
  have key : ∀ (b2 : BResp) (s2 : ℚ → ℚ),
      call_api ts lat lon ps ms data b2 s2 = .err (.payload data) := by
    intro b2 s2
    unfold call_api
    cases hgp : data.grid_params with
    | none => cases hmd : data.model_data <;> rfl
    | some gp =>
      cases hmd : data.model_data with
      | none => rfl
      | some md =>
        exfalso
        rcases h with h | h
        · rw [hgp] at h; exact Option.noConfusion h
        · rw [hmd] at h; exact Option.noConfusion h
  exact ⟨key b sqrtFn, fun b2 s2 => (key b2 s2).trans (key b sqrtFn).symm⟩

/-- Witness for C3 at a concrete input: a payload with `model_data` missing. -/
theorem C3_witness :
    (dataC3.grid_params = none ∨ dataC3.model_data = none) ∧
    call_api "t" 0 0 [Model.NEDM2020] [Measurement.frequency] dataC3 ⟨none⟩
      (fun x => x) = .err (.payload dataC3) :=
  ⟨Or.inr rfl, (C3_structural_failure_short_circuit "t" 0 0 [Model.NEDM2020]
    [Measurement.frequency] dataC3 ⟨none⟩ (fun x => x) (Or.inr rfl)).1⟩

/-- C4 (confirmed): the Normalizer rounds each feature's altitude to the
nearest integer km and keeps the sample iff `100 <= altitude_km <= 1000`
(both bounds inclusive), preserving iteration order (the output `theight` is
exactly the order-preserving filter-then-map of the input features), with all
three series of equal length. -/
theorem C4_normalizer_filter (sqrtFn : ℚ → ℚ) (fs : List Feature)
    (hne : fs ≠ []) :
    ∃ th fr ed,
      get_dlr_data sqrtFn ⟨some fs⟩ = .ok ⟨some th, some fr, some ed⟩ ∧
      th = (fs.filter keepF).map (fun f => pyRound f.alt) ∧
      fr.length = th.length ∧ ed.length = th.length ∧
      ∀ x ∈ th, 100 ≤ x ∧ x ≤ 1000 := by
  have h1 := dlrLoop_theight sqrtFn fs
  have h2 := dlrLoop_frequency sqrtFn fs
  have h3 := dlrLoop_edensity sqrtFn fs
  have hlen : ¬ fs.length = 0 := by simpa [List.length_eq_zero] using hne
  refine ⟨(dlrLoop sqrtFn fs).1, (dlrLoop sqrtFn fs).2.1,
    (dlrLoop sqrtFn fs).2.2, ?_, h1, ?_, ?_, ?_⟩
  · simp [get_dlr_data, hlen]
  · rw [h2, h1]; simp
  · rw [h3, h1]; simp
  · intro x hx
    rw [h1] at hx
    obtain ⟨f, hf, rfl⟩ := List.mem_map.mp hx
    have hkf := (List.mem_filter.mp hf).2
    have hk : pyRound f.alt ≤ 1000 ∧ pyRound f.alt ≥ 100 := by
      simpa [keepF] using hkf
    exact ⟨hk.2, hk.1⟩

/-- Witness for C4: the spec scenario with altitudes `[50, 300, 1500]` keeps
exactly the sample at altitude 300; the output series each have length 1. -/
theorem C4_witness :
    fsC4 ≠ [] ∧
    get_dlr_data (fun x => x) ⟨some fsC4⟩ =
      .ok ⟨some [300], some [89803 / 2500], some [4000000]⟩ ∧
    (∃ th fr ed, get_dlr_data (fun x => x) ⟨some fsC4⟩ =
        .ok ⟨some th, some fr, some ed⟩ ∧
      th = (fsC4.filter keepF).map (fun f => pyRound f.alt) ∧
      fr.length = th.length ∧ ed.length = th.length ∧
      ∀ x ∈ th, 100 ≤ x ∧ x ≤ 1000) := by
  refine ⟨by simp [fsC4], ?_, C4_normalizer_filter (fun x => x) fsC4 (by simp [fsC4])⟩
  norm_num [get_dlr_data, dlrLoop, pyRound, plasmaConst, megaScale, fsC4]

/-- C5 (confirmed): for every kept sample, the output `edensity` is the raw
density times `10^6`, and the output `frequency` is `8.9803 * sqrt(raw
density)` computed from the pre-rescale raw density of the same feature, in
the same iteration (positionally: both outputs are maps of the same filtered
feature list). -/
theorem C5_normalizer_values (sqrtFn : ℚ → ℚ) (fs : List Feature) :
    (dlrLoop sqrtFn fs).2.2 =
      (fs.filter keepF).map (fun f => f.density * 1000000) ∧
    (dlrLoop sqrtFn fs).2.1 =
      (fs.filter keepF).map (fun f => (89803 / 10000 : ℚ) * sqrtFn f.density) :=
  ⟨dlrLoop_edensity sqrtFn fs, dlrLoop_frequency sqrtFn fs⟩

/-- Counterexample for C6: at a concrete input where Client B fails (empty
feature collection), the whole call becomes an ErrorPayload — contrary to the
claim that the failure is surfaced inside the model map instead of the call
becoming an ErrorPayload.  The message is the `KeyError` raised when
`dlr_data["NEDM2020.ALG"]` is looked up on Client B's error dict
(src/main.py:108). -/
theorem C6_counterexample :
    call_api "t" 0 0 [Model.NEDM2020] [Measurement.frequency] dataC6
      ⟨some []⟩ (fun x => x) = .err (.msg (pyQuote "NEDM2020.ALG")) := by rfl

/-- C6 (amended): when `NEDM2020` is requested and Client B fails, `call_api`
never returns a successful profile at all: the error dict from Client B lacks
the `NEDM2020.ALG` key, the lookup at src/main.py:108 raises `KeyError`, and
the whole call returns `{error: "'NEDM2020.ALG'"}` — the model map never
contains an error-shaped value. -/
theorem C6_amended_clientB_failure_fails_call (ts : String) (lat lon : ℚ)
    (ps : List Model) (ms : List Measurement) (data : AResp) (b : BResp)
    (sqrtFn : ℚ → ℚ) (out : OutputData)
    (hreq : Model.NEDM2020 ∈ ps)
    (hfail : ∀ s, get_dlr_data sqrtFn b ≠ DlrResult.ok s) :
    call_api ts lat lon ps ms data b sqrtFn ≠ .ok out := by
  intro h
  obtain ⟨gp, md, c, vp1, vp3, hgp, hmd, hc, h1, h3, _⟩ := call_api_ok_elim h
  obtain ⟨s, hdlr, _⟩ := nedmStep_req_ok hreq h3
  exact hfail s hdlr

/-- Witness for C6 at a concrete input: empty feature collection. -/
theorem C6_witness :
    Model.NEDM2020 ∈ [Model.NEDM2020] ∧
    call_api "t" 0 0 [Model.NEDM2020] [Measurement.frequency] dataC6
      ⟨some []⟩ (fun x => x) ≠
      .ok { timestamp := "t", location := (0, 0), ssn := 1, f10_7 := 2,
            kp := 3, products := "p", measurements := "m",
            plot_data := vpEmpty } :=
  ⟨by simp, C6_amended_clientB_failure_fails_call "t" 0 0 [Model.NEDM2020]
    [Measurement.frequency] dataC6 ⟨some []⟩ (fun x => x) _
    (by simp) (by simp [get_dlr_data])⟩

/-- Counterexample for C9: at a concrete successful run the `products` and
`measurements` fields of the output are the ampersand-joined query fragments
rebound at src/main.py:69-70 (`"products=NEQUICK.ALG"`,
`"measurements=frequency"`), not the sets of identifiers the caller
supplied. -/
theorem C9_counterexample :
    call_api "t" 0 0 [Model.NEQUICK] [Measurement.frequency] dataC9 ⟨none⟩
      (fun x => x) = .ok outC9 ∧
    outC9.products = "products=NEQUICK.ALG" ∧
    modelStr Model.NEQUICK = "NEQUICK.ALG" ∧
    outC9.products ≠ modelStr Model.NEQUICK ∧
    measStr Measurement.frequency = "frequency" ∧
    outC9.measurements ≠ measStr Measurement.frequency := by
  exact ⟨by rfl, rfl, rfl, by decide, rfl, by decide⟩

/-- C9 (amended): every successful MergedProfile's `products` and
`measurements` fields hold the ampersand-joined query-fragment strings built
from the caller's requested lists (`"products=<id>&..."`,
`"measurements=<kind>&..."`), from which the requested sets are recoverable —
not the sets themselves. -/
theorem C9_amended_query_string_echo (ts : String) (lat lon : ℚ)
    (ps : List Model) (ms : List Measurement) (data : AResp) (b : BResp)
    (sqrtFn : ℚ → ℚ) (out : OutputData)
    (h : call_api ts lat lon ps ms data b sqrtFn = .ok out) :
    out.products = productsQS ps ∧ out.measurements = measurementsQS ms := by
  obtain ⟨gp, md, c, vp1, vp3, _, _, _, _, _, rfl⟩ := call_api_ok_elim h
  exact ⟨rfl, rfl⟩

/-- Witness for C9 (amended) at a concrete input. -/
theorem C9_witness :
    call_api "t" 0 0 [Model.NEQUICK] [Measurement.frequency] dataC9 ⟨none⟩
      (fun x => x) = .ok outC9 ∧
    outC9.products = productsQS [Model.NEQUICK] ∧
    outC9.measurements = measurementsQS [Measurement.frequency] :=
  ⟨by rfl, C9_amended_query_string_echo "t" 0 0 [Model.NEQUICK]
    [Measurement.frequency] dataC9 ⟨none⟩ (fun x => x) outC9 (by rfl)⟩

/-- C10 (confirmed): the raw upstream payload is wrapped into the
ErrorPayload only when a top-level key (`grid_params` / `model_data`) is
absent; when both are present but a nested key needed later is missing (for
example `SolCycle`, or a requested model's `theight`), the caught lookup
failure is returned as `{error: <message naming the missing key>}`; no
partial MergedProfile is ever returned. -/
theorem C10_missing_nested_keys (ts : String) (lat lon : ℚ) (ps : List Model)
    (ms : List Measurement) (data : AResp) (b : BResp) (sqrtFn : ℚ → ℚ) :
    (∀ e, call_api ts lat lon ps ms data b sqrtFn = .err (.payload e) →
      e = data ∧ (data.grid_params = none ∨ data.model_data = none)) ∧
    (∀ gp md, data.grid_params = some gp → data.model_data = some md →
      gp.SolCycle = none →
      call_api ts lat lon ps ms data b sqrtFn = .err (.msg (pyQuote "SolCycle"))) ∧
    (∀ gp md c t, data.grid_params = some gp → data.model_data = some md →
      extractCtx gp md = .ok c → Model.TADM ∈ ps → c.vp.tadm = some t →
      t.theight = none →
      call_api ts lat lon ps ms data b sqrtFn = .err (.msg (pyQuote "theight"))) := by
  refine ⟨?_, ?_, ?_⟩
  · intro e he
    unfold call_api at he
    cases hgp : data.grid_params with
    | none =>
      cases hmd : data.model_data <;> rw [hgp, hmd] at he <;>
        simp only [CallResult.err.injEq, ErrVal.payload.injEq] at he <;>
        exact ⟨he.symm, Or.inl rfl⟩
    | some gp =>
      cases hmd : data.model_data with
      | none =>
        rw [hgp, hmd] at he
        simp only [CallResult.err.injEq, ErrVal.payload.injEq] at he
        exact ⟨he.symm, Or.inr rfl⟩
      | some md =>
        simp only [hgp, hmd] at he
        cases hc : extractCtx gp md with
        | error s => simp [hc] at he
        | ok c =>
          simp only [hc] at he
          cases h1 : tadmStep ps ms c.vp with
          | error s => simp [h1] at he
          | ok vp1 =>
            simp only [h1] at he
            cases h3 : nedmStep ps ms (get_dlr_data sqrtFn b) (nequickStep ps vp1) with
            | error s => simp [h3] at he
            | ok vp3 => simp [h3] at he
  · intro gp md hgp hmd hsc
    have hext : extractCtx gp md = .error (pyQuote "SolCycle") := by
      unfold extractCtx; rw [hsc]
    simp [call_api, hgp, hmd, hext]
  · intro gp md c t hgp hmd hc hTADM ht hth
    have hstep : tadmStep ps ms c.vp = .error (pyQuote "theight") := by
      simp [tadmStep, hTADM, ht, hth]
    simp [call_api, hgp, hmd, hc, hstep]

/-- Witness for C10 at a concrete input: both top-level keys present,
`SolCycle` missing, result `{error: "'SolCycle'"}`. -/
theorem C10_witness :
    dataC10.grid_params =
      some { SolCycle := none, Kp := some { kp := some 3 } } ∧
    call_api "t" 0 0 [Model.TADM] [Measurement.edensity] dataC10 ⟨none⟩
      (fun x => x) = .err (.msg (pyQuote "SolCycle")) :=
  ⟨rfl, (C10_missing_nested_keys "t" 0 0 [Model.TADM] [Measurement.edensity]
    dataC10 ⟨none⟩ (fun x => x)).2.1 _ _ rfl rfl rfl⟩

/-- Counterexample for C1: at a concrete input where upstream `TADM.ALG`
carries a `frequency` array that was returned but not requested, the Merger
leaves that array untruncated (length 3) while `theight` is filtered to
length 2 — the alignment invariant is NOT restored for unrequested
measurement arrays, contrary to the claim. -/
theorem C1_counterexample :
    call_api "t" 0 0 [Model.TADM] [Measurement.edensity] dataC1 ⟨none⟩
      (fun x => x) = .ok outC1 ∧
    outC1.plot_data.tadm =
      some ⟨some [100, 500], some [1, 2, 3], some [10, 20]⟩ ∧
    ([(1 : ℚ), 2, 3].length = 3 ∧ ([100, 500] : List Int).length = 2) ∧
    (3 : Nat) ≠ 2 :=
  ⟨by rfl, rfl, by decide, by decide⟩

/-- C1 (amended): in every successful output, array alignment is guaranteed
only for (a) the `NEDM2020` series the Merger itself builds — all populated
arrays have the length of `theight` — and (b) `TADM`'s REQUESTED measurement
arrays, provided the upstream array has at least as many elements as the
filtered `theight`.  `NEQUICK`'s arrays and `TADM`'s unrequested arrays pass
through unchanged and may stay mismatched.  (For (a) the Client A contract
`aNedm data = none` — only baseline models returned — is assumed, since an
upstream `NEDM2020.ALG` entry would be passed through unfiltered when
`NEDM2020` is not requested.) -/
theorem C1_amended_alignment (ts : String) (lat lon : ℚ) (ps : List Model)
    (ms : List Measurement) (data : AResp) (b : BResp) (sqrtFn : ℚ → ℚ)
    (out : OutputData)
    (h : call_api ts lat lon ps ms data b sqrtFn = .ok out) :
    (aNedm data = none → ∀ s, out.plot_data.nedm = some s →
      ∃ th, s.theight = some th ∧
        (∀ fr, s.frequency = some fr → fr.length = th.length) ∧
        (∀ ed, s.edensity = some ed → ed.length = th.length)) ∧
    (Model.TADM ∈ ps → ∀ t, aTadm data = some t →
      ∃ s th, out.plot_data.tadm = some s ∧ s.theight = some th ∧
        (Measurement.frequency ∈ ms → ∀ fl, t.frequency = some fl →
          th.length ≤ fl.length →
          ∃ fr, s.frequency = some fr ∧ fr.length = th.length) ∧
        (Measurement.edensity ∈ ms → ∀ el, t.edensity = some el →
          th.length ≤ el.length →
          ∃ ed, s.edensity = some ed ∧ ed.length = th.length)) := by
  obtain ⟨gp, md, c, vp1, vp3, hgp, hmd, hc, h1, h3, rfl⟩ := call_api_ok_elim h
  obtain ⟨sc, kpo, _, _, _, _, _, hvp⟩ := extractCtx_ok hc
  constructor
  · intro hbase s hs
    have hnedm0 : c.vp.nedm = none := by rw [← aNedm_ctx hmd hvp]; exact hbase
    replace hs : vp3.nedm = some s := hs
    by_cases hreq : Model.NEDM2020 ∈ ps
    · obtain ⟨s0, hdlr, hv3⟩ := nedmStep_req_ok hreq h3
      subst hv3
      simp only [VProfile.nedm, Option.some.injEq] at hs
      subst hs
      obtain ⟨fs, hfeat, hne, hs0⟩ := get_dlr_data_ok hdlr
      subst hs0
      refine ⟨(fs.filter keepF).map (fun f => pyRound f.alt), rfl, ?_, ?_⟩
      · intro fr hfr2
        by_cases hfm : Measurement.frequency ∈ ms
        · rw [if_pos hfm] at hfr2
          injection hfr2 with hfr2
          subst hfr2
          simp
        · rw [if_neg hfm] at hfr2
          exact Option.noConfusion hfr2
      · intro ed hed2
        by_cases hem : Measurement.edensity ∈ ms
        · rw [if_pos hem] at hed2
          injection hed2 with hed2
          subst hed2
          simp
        · rw [if_neg hem] at hed2
          exact Option.noConfusion hed2
    · exfalso
      have hv3 : vp3 = nequickStep ps vp1 := by
        have h' := (@nedmStep_not_req ps ms (get_dlr_data sqrtFn b)
          (nequickStep ps vp1) hreq).symm.trans h3
        injection h' with h'
        exact h'.symm
      rw [hv3, nequickStep_nedm, tadmStep_nedm h1, hnedm0] at hs
      exact Option.noConfusion hs
  · intro hreq t htt
    rw [aTadm_ctx hmd hvp] at htt
    obtain ⟨t', thU, fr, ed, ht', hth, hfr, hed, hv1⟩ := tadmStep_req_ok hreq h1
    subst hv1
    rw [htt] at ht'
    injection ht' with ht'
    subst ht'
    refine ⟨⟨some (thU.filter (fun height => decide (height ≤ 1000))), fr, ed⟩,
      thU.filter (fun height => decide (height ≤ 1000)), ?_, rfl, ?_, ?_⟩
    · show vp3.tadm = _
      rw [nedmStep_tadm h3, nequickStep_tadm]
    · intro hfm fl hfl hlen
      rw [decide_eq_true hfm] at hfr
      obtain ⟨l, hl, hres⟩ := truncMeas_true_ok hfr
      rw [hfl] at hl
      injection hl with hl
      subst hl
      exact ⟨_, hres, by rw [List.length_take]; exact min_eq_left hlen⟩
    · intro hem el hel hlen
      rw [decide_eq_true hem] at hed
      obtain ⟨l, hl, hres⟩ := truncMeas_true_ok hed
      rw [hel] at hl
      injection hl with hl
      subst hl
      exact ⟨_, hres, by rw [List.length_take]; exact min_eq_left hlen⟩

/-- Witness for C1 (amended) at a concrete input: `TADM` and `NEDM2020`
requested with both measurements, aligned upstream arrays, one in-range
Client B feature. -/
theorem C1_witness :
    call_api "t" 0 0 [Model.TADM, Model.NEDM2020]
      [Measurement.frequency, Measurement.edensity] dataC1 bC1w
      (fun x => x) = .ok outC1w ∧
    aNedm dataC1 = none ∧
    outC1w.plot_data.nedm =
      some ⟨some [300], some [89803 / 2500], some [4000000]⟩ ∧
    (∃ th, (⟨some [300], some [89803 / 2500], some [4000000]⟩ :
        SeriesData).theight = some th ∧
      (∀ fr, (⟨some [300], some [89803 / 2500], some [4000000]⟩ :
          SeriesData).frequency = some fr → fr.length = th.length) ∧
      (∀ ed, (⟨some [300], some [89803 / 2500], some [4000000]⟩ :
          SeriesData).edensity = some ed → ed.length = th.length)) ∧
    (Model.TADM ∈ ([Model.TADM, Model.NEDM2020] : List Model) → ∀ t,
      aTadm dataC1 = some t →
      ∃ s th, outC1w.plot_data.tadm = some s ∧ s.theight = some th ∧
        (Measurement.frequency ∈
            ([Measurement.frequency, Measurement.edensity] : List Measurement) →
          ∀ fl, t.frequency = some fl → th.length ≤ fl.length →
          ∃ fr, s.frequency = some fr ∧ fr.length = th.length) ∧
        (Measurement.edensity ∈
            ([Measurement.frequency, Measurement.edensity] : List Measurement) →
          ∀ el, t.edensity = some el → th.length ≤ el.length →
          ∃ ed, s.edensity = some ed ∧ ed.length = th.length)) := by
  have h : call_api "t" 0 0 [Model.TADM, Model.NEDM2020]
      [Measurement.frequency, Measurement.edensity] dataC1 bC1w
      (fun x => x) = .ok outC1w := by
    have hps : productsQS [Model.TADM, Model.NEDM2020] =
      "products=TADM.ALG&products=NEDM2020.ALG" := rfl
    have hms : measurementsQS [Measurement.frequency, Measurement.edensity] =
      "measurements=frequency&measurements=edensity" := rfl
    have hdlr : get_dlr_data (fun x => x) bC1w =
        .ok ⟨some [300], some [89803 / 2500], some [4000000]⟩ := by
      norm_num [get_dlr_data, dlrLoop, pyRound, plasmaConst, megaScale, bC1w]
    simp [call_api, extractCtx, tadmStep, truncMeas, nequickStep, nedmStep,
      hdlr, hps, hms, dataC1, gpFix, vpC1, outC1w]
  refine ⟨h, rfl, rfl, ?_, ?_⟩
  · exact (C1_amended_alignment "t" 0 0 [Model.TADM, Model.NEDM2020]
      [Measurement.frequency, Measurement.edensity] dataC1 bC1w (fun x => x)
      outC1w h).1 rfl ⟨some [300], some [89803 / 2500], some [4000000]⟩ rfl
  · exact (C1_amended_alignment "t" 0 0 [Model.TADM, Model.NEDM2020]
      [Measurement.frequency, Measurement.edensity] dataC1 bC1w (fun x => x)
      outC1w h).2

/-- Counterexample for C2: with upstream `theight = [100, 500]` and a
requested `edensity` array of length 1, the truncated output has length 1,
not the claimed length `n = 2`. -/
theorem C2_counterexample :
    call_api "t" 0 0 [Model.TADM] [Measurement.edensity] dataC2 ⟨none⟩
      (fun x => x) = .ok outC2 ∧
    outC2.plot_data.tadm = some ⟨some [100, 500], none, some [7]⟩ ∧
    ([(7 : ℚ)].length = 1 ∧ ([100, 500] : List Int).length = 2) ∧
    (1 : Nat) ≠ 2 :=
  ⟨by rfl, rfl, by decide, by decide⟩

/-- C2 (amended): if `TADM` is requested and Client A succeeds, the output
`TADM` series keeps only the `theight` values `<= 1000` (no lower bound),
and each REQUESTED measurement array is the first-`n` prefix (`take n`) of
the upstream array, where `n` is the filtered `theight` length — hence of
length `min n (upstream length)`, equal to `n` only when the upstream array
had at least `n` elements; unrequested arrays pass through unchanged.  (The
spec's concrete scenario `theight=[100,500,1200]`, `edensity=[1,2,3]`,
only `edensity` requested → `theight=[100,500]`, `edensity=[1,2]`, no
`frequency` key, holds and is the witness run.) -/
theorem C2_amended_tadm_truncation (ts : String) (lat lon : ℚ)
    (ps : List Model) (ms : List Measurement) (data : AResp) (b : BResp)
    (sqrtFn : ℚ → ℚ) (out : OutputData)
    (h : call_api ts lat lon ps ms data b sqrtFn = .ok out)
    (hreq : Model.TADM ∈ ps) :
    ∃ t th, aTadm data = some t ∧ t.theight = some th ∧
      ∃ s, out.plot_data.tadm = some s ∧
        s.theight = some (th.filter (fun height => decide (height ≤ 1000))) ∧
        (∀ x ∈ th.filter (fun height => decide (height ≤ 1000)), x ≤ 1000) ∧
        (Measurement.frequency ∈ ms → ∃ fl, t.frequency = some fl ∧
          s.frequency = some (fl.take
            (th.filter (fun height => decide (height ≤ 1000))).length)) ∧
        (Measurement.edensity ∈ ms → ∃ el, t.edensity = some el ∧
          s.edensity = some (el.take
            (th.filter (fun height => decide (height ≤ 1000))).length)) ∧
        (Measurement.frequency ∉ ms → s.frequency = t.frequency) ∧
        (Measurement.edensity ∉ ms → s.edensity = t.edensity) := by
  obtain ⟨gp, md, c, vp1, vp3, hgp, hmd, hc, h1, h3, rfl⟩ := call_api_ok_elim h
  obtain ⟨sc, kpo, _, _, _, _, _, hvp⟩ := extractCtx_ok hc
  obtain ⟨t, thU, fr, ed, ht, hth, hfr, hed, hv1⟩ := tadmStep_req_ok hreq h1
  subst hv1
  refine ⟨t, thU, by rw [aTadm_ctx hmd hvp]; exact ht, hth,
    ⟨some (thU.filter (fun height => decide (height ≤ 1000))), fr, ed⟩,
    ?_, rfl, ?_, ?_, ?_, ?_, ?_⟩
  · show vp3.tadm = _
    rw [nedmStep_tadm h3, nequickStep_tadm]
  · intro x hx
    have := (List.mem_filter.mp hx).2
    simpa using this
  · intro hm
    rw [decide_eq_true hm] at hfr
    obtain ⟨l, hl, hres⟩ := truncMeas_true_ok hfr
    exact ⟨l, hl, hres⟩
  · intro hm
    rw [decide_eq_true hm] at hed
    obtain ⟨l, hl, hres⟩ := truncMeas_true_ok hed
    exact ⟨l, hl, hres⟩
  · intro hm
    rw [decide_eq_false hm, truncMeas_false] at hfr
    injection hfr with hfr
    exact hfr.symm
  · intro hm
    rw [decide_eq_false hm, truncMeas_false] at hed
    injection hed with hed
    exact hed.symm

/-- Witness for C2 (amended): the spec's scenario —
`theight = [100, 500, 1200]`, `edensity = [1, 2, 3]`, only `edensity`
requested — yields `theight = [100, 500]`, `edensity = [1, 2]`, no
`frequency` key. -/
theorem C2_witness :
    call_api "t" 0 0 [Model.TADM] [Measurement.edensity] dataC2w ⟨none⟩
      (fun x => x) = .ok outC2w ∧
    Model.TADM ∈ ([Model.TADM] : List Model) ∧
    (∃ t th, aTadm dataC2w = some t ∧ t.theight = some th ∧
      ∃ s, outC2w.plot_data.tadm = some s ∧
        s.theight = some (th.filter (fun height => decide (height ≤ 1000))) ∧
        (∀ x ∈ th.filter (fun height => decide (height ≤ 1000)), x ≤ 1000) ∧
        (Measurement.frequency ∈ ([Measurement.edensity] : List Measurement) →
          ∃ fl, t.frequency = some fl ∧ s.frequency = some (fl.take
            (th.filter (fun height => decide (height ≤ 1000))).length)) ∧
        (Measurement.edensity ∈ ([Measurement.edensity] : List Measurement) →
          ∃ el, t.edensity = some el ∧ s.edensity = some (el.take
            (th.filter (fun height => decide (height ≤ 1000))).length)) ∧
        (Measurement.frequency ∉ ([Measurement.edensity] : List Measurement) →
          s.frequency = t.frequency) ∧
        (Measurement.edensity ∉ ([Measurement.edensity] : List Measurement) →
          s.edensity = t.edensity)) :=
  ⟨by rfl, by decide,
    C2_amended_tadm_truncation "t" 0 0 [Model.TADM] [Measurement.edensity]
      dataC2w ⟨none⟩ (fun x => x) outC2w (by rfl) (by decide)⟩

/-- C7 (confirmed): in every successful output, each measurement kind not in
the requested set is absent from the `NEDM2020` series (assuming the Client A
contract that it returns only the baseline models), while the `NEQUICK` and
`TADM` series may still carry arrays for unrequested measurements — the
second conjunct exhibits a successful run in which `TADM`'s unrequested
`frequency` array survives in the output. -/
theorem C7_measurement_filter_asymmetry :
    (∀ (ts : String) (lat lon : ℚ) (ps : List Model) (ms : List Measurement)
        (data : AResp) (b : BResp) (sqrtFn : ℚ → ℚ) (out : OutputData),
      call_api ts lat lon ps ms data b sqrtFn = .ok out →
      aNedm data = none →
      ∀ s, out.plot_data.nedm = some s →
        (Measurement.frequency ∉ ms → s.frequency = none) ∧
        (Measurement.edensity ∉ ms → s.edensity = none)) ∧
    (call_api "t" 0 0 [Model.TADM] [Measurement.edensity] dataC7 ⟨none⟩
        (fun x => x) = .ok outC7 ∧
      outC7.plot_data.tadm =
        some ⟨some [100, 500], some [1, 2], some [10, 20]⟩ ∧
      Measurement.frequency ∉ ([Measurement.edensity] : List Measurement)) := by
  constructor
  · intro ts lat lon ps ms data b sqrtFn out h hbase s hs
    obtain ⟨gp, md, c, vp1, vp3, hgp, hmd, hc, h1, h3, rfl⟩ := call_api_ok_elim h
    obtain ⟨sc, kpo, _, _, _, _, _, hvp⟩ := extractCtx_ok hc
    have hnedm0 : c.vp.nedm = none := by rw [← aNedm_ctx hmd hvp]; exact hbase
    replace hs : vp3.nedm = some s := hs
    by_cases hreq : Model.NEDM2020 ∈ ps
    · obtain ⟨s0, hdlr, hv3⟩ := nedmStep_req_ok hreq h3
      subst hv3
      simp only [VProfile.nedm, Option.some.injEq] at hs
      subst hs
      constructor
      · intro hf; simp [hf]
      · intro he; simp [he]
    · exfalso
      have hv3 : vp3 = nequickStep ps vp1 := by
        have h' := (@nedmStep_not_req ps ms (get_dlr_data sqrtFn b)
          (nequickStep ps vp1) hreq).symm.trans h3
        injection h' with h'
        exact h'.symm
      rw [hv3, nequickStep_nedm, tadmStep_nedm h1, hnedm0] at hs
      exact Option.noConfusion hs
  · exact ⟨by rfl, rfl, by decide⟩

/-- Witness for C7 at a concrete input: `NEDM2020` requested with only
`edensity`; the unrequested `frequency` array is deleted from the `NEDM2020`
series. -/
theorem C7_witness :
    call_api "t" 0 0 [Model.NEDM2020] [Measurement.edensity] dataC7b bC7b
      (fun x => x) = .ok outC7b ∧
    aNedm dataC7b = none ∧
    outC7b.plot_data.nedm = some ⟨some [300], none, some [4000000]⟩ ∧
    (⟨some [300], none, some [4000000]⟩ : SeriesData).frequency = none := by
  have h : call_api "t" 0 0 [Model.NEDM2020] [Measurement.edensity] dataC7b
      bC7b (fun x => x) = .ok outC7b := by
    have hps : productsQS [Model.NEDM2020] = "products=NEDM2020.ALG" := rfl
    have hms : measurementsQS [Measurement.edensity] =
      "measurements=edensity" := rfl
    have hdlr : get_dlr_data (fun x => x) bC7b =
        .ok ⟨some [300], some [89803 / 2500], some [4000000]⟩ := by
      norm_num [get_dlr_data, dlrLoop, pyRound, plasmaConst, megaScale, bC7b]
    simp [call_api, extractCtx, tadmStep, truncMeas, nequickStep, nedmStep,
      hdlr, hps, hms, dataC7b, gpFix, vpEmpty, outC7b]
  exact ⟨h, rfl, rfl,
    (C7_measurement_filter_asymmetry.1 "t" 0 0 [Model.NEDM2020]
      [Measurement.edensity] dataC7b bC7b (fun x => x) outC7b h rfl
      ⟨some [300], none, some [4000000]⟩ rfl).1 (by decide)⟩

/-- C8 (confirmed): in every successful output, every model identifier not
in the requested set is absent from the model map: `TADM` and `NEQUICK` are
removed when not requested despite the unconditional baseline fetch, and
`NEDM2020` is only inserted when requested (assuming the Client A contract
that it returns only the baseline models). -/
theorem C8_no_model_leakage (ts : String) (lat lon : ℚ) (ps : List Model)
    (ms : List Measurement) (data : AResp) (b : BResp) (sqrtFn : ℚ → ℚ)
    (out : OutputData)
    (h : call_api ts lat lon ps ms data b sqrtFn = .ok out)
    (hbase : aNedm data = none) :
    (Model.TADM ∉ ps → out.plot_data.tadm = none) ∧
    (Model.NEQUICK ∉ ps → out.plot_data.nequick = none) ∧
    (Model.NEDM2020 ∉ ps → out.plot_data.nedm = none) := by
  obtain ⟨gp, md, c, vp1, vp3, hgp, hmd, hc, h1, h3, rfl⟩ := call_api_ok_elim h
  obtain ⟨sc, kpo, _, _, _, _, _, hvp⟩ := extractCtx_ok hc
  have hnedm0 : c.vp.nedm = none := by rw [← aNedm_ctx hmd hvp]; exact hbase
  refine ⟨?_, ?_, ?_⟩
  · intro hn
    have hv1 : vp1 = { c.vp with tadm := none } := by
      have h' := (@tadmStep_not_req ps ms c.vp hn).symm.trans h1
      injection h' with h'
      exact h'.symm
    show vp3.tadm = none
    rw [nedmStep_tadm h3, nequickStep_tadm, hv1]
  · intro hn
    show vp3.nequick = none
    rw [nedmStep_nequick h3]
    exact nequickStep_not_req hn
  · intro hn
    have hv3 : vp3 = nequickStep ps vp1 := by
      have h' := (@nedmStep_not_req ps ms (get_dlr_data sqrtFn b)
        (nequickStep ps vp1) hn).symm.trans h3
      injection h' with h'
      exact h'.symm
    show vp3.nedm = none
    rw [hv3, nequickStep_nedm, tadmStep_nedm h1, hnedm0]

/-- Witness for C8 at a concrete input: only `NEQUICK` requested; the
baseline-fetched `TADM.ALG` is removed and `NEDM2020.ALG` is absent. -/
theorem C8_witness :
    call_api "t" 0 0 [Model.NEQUICK] [Measurement.frequency] dataC8 ⟨none⟩
      (fun x => x) = .ok outC8 ∧
    Model.TADM ∉ ([Model.NEQUICK] : List Model) ∧
    outC8.plot_data.tadm = none ∧ outC8.plot_data.nedm = none := by
  have h : call_api "t" 0 0 [Model.NEQUICK] [Measurement.frequency] dataC8
      ⟨none⟩ (fun x => x) = .ok outC8 := by rfl
  have hb : aNedm dataC8 = none := by rfl
  exact ⟨h, by decide,
    (C8_no_model_leakage "t" 0 0 [Model.NEQUICK] [Measurement.frequency]
      dataC8 ⟨none⟩ (fun x => x) outC8 h hb).1 (by decide),
    (C8_no_model_leakage "t" 0 0 [Model.NEQUICK] [Measurement.frequency]
      dataC8 ⟨none⟩ (fun x => x) outC8 h hb).2.2 (by decide)⟩

end WfIonEd
